import Mathlib

/-!
Shallow embedding of the decision core of the `esubu_credit_scoring_v3`
repository (files `app_simple.py`, `app.py`, `test_code_quality.py`).

Numeric values that Python holds as `float` are modelled as rationals `ℚ`;
Python `int` values are modelled as `ℤ` (or `ℕ` where clearly non-negative).
Python's `int(x)` conversion truncates toward zero and `round` uses
round-half-to-even; both are modelled explicitly below.
-/

namespace Esubu

/-- Python's `int(x)` conversion on a real value: truncation toward zero. -/
def pyTrunc (q : ℚ) : ℤ :=
  if q < 0 then -⌊-q⌋ else ⌊q⌋

/-- Python's `round(x)`: round to nearest integer, ties to even. -/
def roundHalfEven (q : ℚ) : ℤ :=
  let f := ⌊q⌋
  if q - f < 1/2 then f
  else if 1/2 < q - f then f + 1
  else if f % 2 = 0 then f else f + 1

/-- Python's `round(x, 4)`: round to four decimal places, ties to even. -/
def round4 (q : ℚ) : ℚ :=
  (roundHalfEven (q * 10000) : ℚ) / 10000

/-- `app_simple.py`, lines 140–141:
`def map_probability_to_score(prob, min_score=300, max_score=800):
    return int(min_score + prob * (max_score - min_score))`.
The default arguments 300 and 800 are passed explicitly at every call site
of this embedding. -/
def map_probability_to_score (prob : ℚ) (min_score max_score : ℤ) : ℤ :=
  pyTrunc (min_score + prob * (max_score - min_score))

/-- `app.py`, lines 150–152:
`def probability_to_score(prob, min_score=300, max_score=800):
    return (1 - prob) * (max_score - min_score) + min_score`.
This variant returns the float unrounded. -/
def probability_to_score (prob : ℚ) (min_score max_score : ℤ) : ℚ :=
  (1 - prob) * ((max_score : ℚ) - min_score) + min_score

/-- `test_code_quality.py`, lines 340–373, `calculate_probability_score`:
raises `ValueError` unless `0 <= probability <= 1` and `min_score < max_score`,
otherwise returns `(1 - probability) * (max_score - min_score) + min_score`.
The `isinstance` type checks are subsumed by the Lean types. -/
def calculate_probability_score (probability : ℚ) (min_score max_score : ℤ) :
    Except String ℚ :=
  if probability < 0 ∨ 1 < probability then
    Except.error "Probability must be a number between 0 and 1"
  else if max_score ≤ min_score then
    Except.error "Maximum score must be greater than minimum score"
  else
    Except.ok ((1 - probability) * ((max_score : ℚ) - min_score) + min_score)

/-- `app_simple.py`, lines 143–158, `decision_logic`.  The `income` argument
is accepted (as in the source) but never used.  Decisions are the literal
strings of the source. -/
def decision_logic (prob income : ℚ) (repayment_history : String)
    (has_collateral missing_docs : Bool) : ℤ × String :=
  let credit_score := map_probability_to_score prob 300 800
  let decision :=
    if 700 ≤ credit_score ∧ repayment_history = "good" then "Approved"
    else if 600 ≤ credit_score ∧
        (repayment_history = "good" ∨ repayment_history = "average") ∧
        has_collateral then "Approved"
    else if (500 ≤ credit_score ∧ credit_score < 600) ∨
        repayment_history = "average" then "Review"
    else "Rejected"
  let decision := if missing_docs then "Review" else decision
  (credit_score, decision)

/-- The multiplier chain of `app_simple.py`, lines 161–170 (the body of
`estimate_loan_amount` before the final `round`). -/
def loanMultiplier (credit_score : ℤ) : ℚ :=
  if 750 ≤ credit_score then 3
  else if 700 ≤ credit_score then 5/2
  else if 650 ≤ credit_score then 2
  else if 600 ≤ credit_score then 3/2
  else 1

/-- `app_simple.py`, lines 160–172, `estimate_loan_amount`:
`return round(income * multiplier, -3)` — rounding to the nearest multiple
of 1000, ties to the even multiple (Python `round` with `ndigits = -3`). -/
def estimate_loan_amount (income : ℚ) (credit_score : ℤ) : ℚ :=
  ((1000 * roundHalfEven (income * loanMultiplier credit_score / 1000) : ℤ) : ℚ)

/-- Helper for the thousands separator of Python's format spec `,`:
split a (reversed) digit list into groups of three. -/
def chunk3 (ds : List Char) : List (List Char) :=
  match ds with
  | [] => []
  | d :: rest => (d :: rest.take 2) :: chunk3 (rest.drop 2)
termination_by ds.length
decreasing_by
  simp only [List.length_cons, List.length_drop]
  omega

/-- Digits of `n` with a comma every three digits from the right, as in
Python's `f"{x:,.0f}"` on a non-negative value. -/
def commaGroup (n : ℕ) : String :=
  String.mk (List.intercalate [','] (((chunk3 (toString n).data.reverse).map List.reverse).reverse))

/-- Python's `f"{amount:,.0f}"`: round half-to-even to an integer, then
render with thousands separators (a leading minus sign when negative). -/
def formatAmount (q : ℚ) : String :=
  let r := roundHalfEven q
  if r < 0 then "-" ++ commaGroup r.natAbs else commaGroup r.natAbs

/-- `app_simple.py`, lines 174–180, `generate_message`.  The literal message
text (including the characters exactly as they appear in the source file) is
reproduced with the f-string holes spliced by concatenation.  In the source,
`amount` defaults to `None` and is only formatted on the `Approved` branch,
where `run_decision_engine` always supplies a number; the `Option.getD 0`
below fills the branch that the source never reaches with a value (Python
would raise a `TypeError` there). -/
def generate_message (decision : String) (credit_score : ℤ) (amount : Option ℚ) :
    String :=
  if decision = "Approved" then
    "‚úÖ Congratulations! Your loan has been approved with a credit score of "
      ++ toString credit_score
      ++ ". The approved loan amount is **KES "
      ++ formatAmount (amount.getD 0)
      ++ "**."
  else if decision = "Review" then
    "üìã Your loan application is under review. A loan officer will contact you shortly. (Credit score: "
      ++ toString credit_score
      ++ ")"
  else
    "‚ùå We're sorry, your loan application was not approved at this time. (Credit score: "
      ++ toString credit_score
      ++ ")"

/-- The record returned by `run_decision_engine` (`app_simple.py`,
lines 216–222). -/
structure DecisionResult where
  credit_score : ℤ
  decision : String
  loan_amount : Option ℚ
  probability : ℚ
  message : String
deriving Repr, DecidableEq

/-- `app_simple.py`, lines 182–222, `run_decision_engine`, modelled from the
point where the external oracle has produced the probability `prob`
(`model.predict_proba(...)[0][1]`); the model/pipeline loading failure paths
are oracle-collaborator concerns outside the decision core.  `income`,
`repayment_history`, `has_collateral` and `missing_docs` are the original
(non-transformed) input-frame values. -/
def run_decision_engine (prob income : ℚ) (repayment_history : String)
    (has_collateral missing_docs : Bool) : DecisionResult :=
  let r := decision_logic prob income repayment_history has_collateral missing_docs
  let credit_score := r.1
  let decision := r.2
  let approved_loan_amount : Option ℚ :=
    if decision = "Approved" then some (estimate_loan_amount income credit_score)
    else none
  let message := generate_message decision credit_score approved_loan_amount
  DecisionResult.mk credit_score decision approved_loan_amount (round4 prob) message

/-- Code-point comparison of characters, as Python compares string items. -/
def charLt (c d : Char) : Bool :=
  c.toNat < d.toNat

/-- Lexicographic code-point comparison of character lists: Python's `<` on
strings. -/
def listCharLt : List Char → List Char → Bool
  | [], [] => false
  | [], _ :: _ => true
  | _ :: _, [] => false
  | c :: cs, d :: ds =>
    if charLt c d then true
    else if charLt d c then false
    else listCharLt cs ds

/-- Python's `<` on strings (code-point lexicographic order). -/
def strLt (a b : String) : Bool :=
  listCharLt a.data b.data

/-- Insertion step of sorting the distinct column values (Python
`sorted(set(...))`, as `sklearn` `LabelEncoder.fit` computes `classes_`);
a value equal to one already present is dropped. -/
def insertSorted (x : String) : List String → List String
  | [] => [x]
  | y :: ys =>
    if strLt x y then x :: y :: ys
    else if x = y then y :: ys
    else y :: insertSorted x ys

/-- `sorted(set(column))`: the `classes_` a freshly fit `LabelEncoder` derives
from the submitted column. -/
def sortedUnique (ys : List String) : List String :=
  ys.foldr insertSorted []

/-- `LabelEncoder().fit_transform(column)` as used at `app_simple.py`,
lines 301–303: each value is replaced by its index in the sorted set of the
values of the submitted column itself.  In `loan_application` the frame has
exactly one row, so every column passed here is a one-element list. -/
def labelEncode (ys : List String) : List ℕ :=
  ys.map (fun y => (sortedUnique ys).indexOf y)

/-- `pat` occurs as a contiguous substring of `s`. -/
def strContains (s pat : String) : Prop :=
  pat.data <:+: s.data

lemma pyTrunc_eq_floor (q : ℚ) (h : 0 ≤ q) : pyTrunc q = ⌊q⌋ := by
  unfold pyTrunc
  rw [if_neg (not_lt.mpr h)]

lemma strContains_self (p : String) : strContains p p :=
  ⟨[], [], by simp⟩

lemma strContains_appendl (s t p : String) (h : strContains s p) :
    strContains (s ++ t) p := by
  obtain ⟨u, v, huv⟩ := h
  exact ⟨u, v ++ t.data, by rw [String.data_append, ← huv]; simp⟩

lemma strContains_appendr (s t p : String) (h : strContains t p) :
    strContains (s ++ t) p := by
  obtain ⟨u, v, huv⟩ := h
  exact ⟨s.data ++ u, v, by rw [String.data_append, ← huv]; simp⟩

lemma decision_logic_cases (prob income : ℚ) (rh : String) (hc md : Bool) :
    (decision_logic prob income rh hc md).2 = "Approved" ∨
    (decision_logic prob income rh hc md).2 = "Review" ∨
    (decision_logic prob income rh hc md).2 = "Rejected" := by
  unfold decision_logic
  dsimp only
  split_ifs <;> simp

end Esubu

namespace Esubu

/-- C1: with `missing_documents = false`, `decision_logic` realises the
ordered decision table evaluated top-to-bottom with first match winning
(rule 1: score ≥ 700 and good history → Approved; rule 2: score ≥ 600,
good-or-average history and collateral → Approved; rule 3: 500 ≤ score < 600
or average history → Review; rule 4: otherwise Rejected).  A probability of
21/25 yields score 720, which with average history and no collateral falls
through rules 1 and 2 into rule 3 (Review); a probability of 199/500 yields
score 499, which with poor history and no collateral is Rejected. -/
theorem decision_table_first_match :
    (∀ (prob income : ℚ) (rh : String) (hc : Bool),
      (decision_logic prob income rh hc false).2 =
        (let s := map_probability_to_score prob 300 800
         if 700 ≤ s ∧ rh = "good" then "Approved"
         else if 600 ≤ s ∧ (rh = "good" ∨ rh = "average") ∧ hc then "Approved"
         else if (500 ≤ s ∧ s < 600) ∨ rh = "average" then "Review"
         else "Rejected")) ∧
    decision_logic (21/25) 50000 "average" false false = (720, "Review") ∧
    decision_logic (199/500) 50000 "poor" false false = (499, "Rejected") := by
  refine ⟨fun prob income rh hc => rfl, ?_, ?_⟩
  · norm_num [decision_logic, map_probability_to_score, pyTrunc] <;> decide
  · norm_num [decision_logic, map_probability_to_score, pyTrunc] <;> decide

/-- C2: whenever `missing_documents` is true the decision returned by
`decision_logic` is `"Review"`, for every probability, income, repayment
history and collateral flag — the override applies after rules 1–4. -/
theorem missing_docs_forces_review :
    ∀ (prob income : ℚ) (rh : String) (hc : Bool),
      (decision_logic prob income rh hc true).2 = "Review" := by
  intro prob income rh hc
  simp only [decision_logic, if_true]

/-- C3 counterexample: at probability 19/10000 the score mapping of
`app_simple.py` returns 300 (Python `int()` truncation of 300.95), while the
claimed formula `round(min_score + probability * (max_score - min_score))`
gives 301 — so the mapping does not compute `round(...)`. -/
theorem truncation_not_rounding :
    map_probability_to_score (19/10000) 300 800 = 300 ∧
    round ((300 : ℚ) + (19/10000) * ((800 : ℚ) - 300)) = 301 ∧
    (300 : ℤ) ≠ 301 := by
  refine ⟨?_, ?_, by norm_num⟩
  · norm_num [map_probability_to_score, pyTrunc]
  · norm_num [round_eq]

/-- C3 (amended): the probability-to-score mapping computes
`int(min_score + probability * (max_score - min_score))` — truncation toward
zero, not `round` — with defaults 300/800; probability 0 maps to 300, 1/2 to
550 and 1 to 800, and the score is monotonically non-decreasing in the
probability of the favorable outcome. -/
theorem score_mapping_truncates :
    (∀ (p : ℚ) (a b : ℤ),
      map_probability_to_score p a b = pyTrunc ((a : ℚ) + p * ((b : ℚ) - a))) ∧
    map_probability_to_score 0 300 800 = 300 ∧
    map_probability_to_score (1/2) 300 800 = 550 ∧
    map_probability_to_score 1 300 800 = 800 ∧
    (∀ p q : ℚ, 0 ≤ p → p ≤ q →
      map_probability_to_score p 300 800 ≤ map_probability_to_score q 300 800) := by
  refine ⟨fun p a b => rfl, ?_, ?_, ?_, ?_⟩
  · norm_num [map_probability_to_score, pyTrunc]
  · norm_num [map_probability_to_score, pyTrunc]
  · norm_num [map_probability_to_score, pyTrunc]
  · intro p q hp hpq
    have hq : (0 : ℚ) ≤ q := hp.trans hpq
    have h1 : (0 : ℚ) ≤ ((300 : ℤ) : ℚ) + p * (((800 : ℤ) : ℚ) - ((300 : ℤ) : ℚ)) := by
      push_cast
      nlinarith
    have h2 : (0 : ℚ) ≤ ((300 : ℤ) : ℚ) + q * (((800 : ℤ) : ℚ) - ((300 : ℤ) : ℚ)) := by
      push_cast
      nlinarith
    unfold map_probability_to_score
    rw [pyTrunc_eq_floor _ h1, pyTrunc_eq_floor _ h2]
    apply Int.floor_le_floor
    push_cast
    nlinarith

/-- C3 witness: the monotonicity clause applied at probabilities 0 and 1. -/
theorem score_mapping_truncates_witness :
    (0 : ℚ) ≤ 0 ∧ (0 : ℚ) ≤ 1 ∧
    map_probability_to_score 0 300 800 ≤ map_probability_to_score 1 300 800 :=
  ⟨le_refl 0, by norm_num,
    score_mapping_truncates.2.2.2.2 0 1 (le_refl 0) (by norm_num)⟩

/-- C4 counterexample: `map_probability_to_score` in `app_simple.py` does not
reject the out-of-range probability 2 — it returns the score 1300, which lies
outside `[300, 800]`, with no error. -/
theorem no_rejection_out_of_range :
    map_probability_to_score 2 300 800 = 1300 ∧
    ¬ map_probability_to_score 2 300 800 ≤ 800 := by
  constructor <;> norm_num [map_probability_to_score, pyTrunc]

/-- C4 (amended): every probability in `[0, 1]` yields a score within
`[min_score, max_score]` (defaults 300/800), both for
`map_probability_to_score` in `app_simple.py` and for
`calculate_probability_score` in `test_code_quality.py`; the latter rejects
out-of-range probability with an error, while the former performs no
validation and silently returns an out-of-range score (never clamping). -/
theorem clamping_and_validation :
    (∀ p : ℚ, 0 ≤ p → p ≤ 1 →
      300 ≤ map_probability_to_score p 300 800 ∧
      map_probability_to_score p 300 800 ≤ 800) ∧
    (∀ p : ℚ, 0 ≤ p → p ≤ 1 →
      calculate_probability_score p 300 800 = Except.ok ((1 - p) * 500 + 300) ∧
      300 ≤ (1 - p) * 500 + 300 ∧ (1 - p) * 500 + 300 ≤ (800 : ℚ)) ∧
    (∀ p : ℚ, (p < 0 ∨ 1 < p) →
      calculate_probability_score p 300 800 =
        Except.error "Probability must be a number between 0 and 1") := by
  refine ⟨?_, ?_, ?_⟩
  · intro p hp hp1
    have harg : ((300 : ℤ) : ℚ) + p * (((800 : ℤ) : ℚ) - ((300 : ℤ) : ℚ)) =
        300 + p * 500 := by push_cast; ring
    have h0 : (0 : ℚ) ≤ 300 + p * 500 := by nlinarith
    unfold map_probability_to_score
    rw [harg, pyTrunc_eq_floor _ h0]
    constructor
    · exact Int.le_floor.mpr (by push_cast; nlinarith)
    · calc ⌊(300 : ℚ) + p * 500⌋ ≤ ⌊(800 : ℚ)⌋ :=
            Int.floor_le_floor (by nlinarith)
        _ = 800 := by norm_num
  · intro p hp hp1
    unfold calculate_probability_score
    rw [if_neg (by push_neg; exact ⟨hp, hp1⟩), if_neg (by norm_num)]
    refine ⟨by norm_num, by nlinarith, by nlinarith⟩
  · intro p hp
    unfold calculate_probability_score
    rw [if_pos hp]

/-- C4 witness: the amended claim applied at probability 1/2. -/
theorem clamping_and_validation_witness :
    (0 : ℚ) ≤ 1/2 ∧ (1/2 : ℚ) ≤ 1 ∧
    300 ≤ map_probability_to_score (1/2) 300 800 ∧
    map_probability_to_score (1/2) 300 800 ≤ 800 ∧
    calculate_probability_score (1/2) 300 800 =
      Except.ok ((1 - 1/2) * 500 + 300) := by
  refine ⟨by norm_num, by norm_num, ?_, ?_, ?_⟩
  · exact (clamping_and_validation.1 (1/2) (by norm_num) (by norm_num)).1
  · exact (clamping_and_validation.1 (1/2) (by norm_num) (by norm_num)).2
  · exact (clamping_and_validation.2.1 (1/2) (by norm_num) (by norm_num)).1

/-- C5 (code bug): the encoding step of `loan_application` never fails — a
freshly fit `LabelEncoder` on the one-row column silently encodes every raw
categorical value, including the out-of-vocabulary `"excellent"`, to the
integer code 0.  There is no `UnknownCategoryError`: `labelEncode` is a total
function into integer codes. -/
theorem unknown_category_silently_encoded :
    labelEncode ["excellent"] = [0] ∧ (∀ s : String, labelEncode [s] = [0]) := by
  have h : ∀ s : String, labelEncode [s] = [0] := by
    intro s
    simp [labelEncode, sortedUnique, insertSorted]
  exact ⟨h "excellent", h⟩

/-- C6 (code bug): because lines 301–303 of `app_simple.py` re-fit a fresh
`LabelEncoder` on each submitted one-row column, the code a raw value
receives is derived from the submitted input, not from one fixed
pre-registered table: every value of the form vocabulary
good/average/poor is encoded as 0 in a one-row submission, whereas a fixed
table over that vocabulary assigns average ↦ 0, good ↦ 1, poor ↦ 2. -/
theorem per_call_refit_collapses_codes :
    labelEncode ["good"] = [0] ∧
    labelEncode ["average"] = [0] ∧
    labelEncode ["poor"] = [0] ∧
    labelEncode ["good", "average", "poor"] = [1, 0, 2] := by
  refine ⟨?_, ?_, ?_, ?_⟩ <;> decide

/-- C7: the recommended loan amount is `round(income * multiplier, -3)`
(nearest thousand, ties to even), where the multiplier is a step function of
the score evaluated highest-first: ≥ 750 → 3.0, ≥ 700 → 2.5, ≥ 650 → 2.0,
≥ 600 → 1.5, otherwise 1.0; in particular score 750 with income 50000 gives
exactly 150000 (no lower-tier fallthrough) and score 749 gives 125000. -/
theorem loan_amount_step_function :
    (∀ (income : ℚ) (s : ℤ), estimate_loan_amount income s =
      ((1000 * roundHalfEven (income * loanMultiplier s / 1000) : ℤ) : ℚ)) ∧
    (∀ s : ℤ, 750 ≤ s → loanMultiplier s = 3) ∧
    (∀ s : ℤ, 700 ≤ s → s < 750 → loanMultiplier s = 5/2) ∧
    (∀ s : ℤ, 650 ≤ s → s < 700 → loanMultiplier s = 2) ∧
    (∀ s : ℤ, 600 ≤ s → s < 650 → loanMultiplier s = 3/2) ∧
    (∀ s : ℤ, s < 600 → loanMultiplier s = 1) ∧
    estimate_loan_amount 50000 750 = 150000 ∧
    estimate_loan_amount 50000 749 = 125000 := by
  refine ⟨fun income s => rfl, ?_, ?_, ?_, ?_, ?_, ?_, ?_⟩
  · intro s h
    unfold loanMultiplier
    split_ifs <;> first | rfl | omega
  · intro s h1 h2
    unfold loanMultiplier
    split_ifs <;> first | rfl | omega
  · intro s h1 h2
    unfold loanMultiplier
    split_ifs <;> first | rfl | omega
  · intro s h1 h2
    unfold loanMultiplier
    split_ifs <;> first | rfl | omega
  · intro s h
    unfold loanMultiplier
    split_ifs <;> first | rfl | omega
  · norm_num [estimate_loan_amount, loanMultiplier, roundHalfEven]
  · norm_num [estimate_loan_amount, loanMultiplier, roundHalfEven]

/-- C7 witness: the top multiplier tier applied at score 760. -/
theorem loan_amount_step_function_witness :
    (750 : ℤ) ≤ 760 ∧ loanMultiplier 760 = 3 :=
  ⟨by norm_num, loan_amount_step_function.2.1 760 (by norm_num)⟩

/-- C9: `probability_to_score` in `app.py` computes
`(1 - p) * (max_score - min_score) + min_score` while
`map_probability_to_score` in `app_simple.py` computes
`int(min_score + p * (max_score - min_score))`; for every probability in
`[0, 1]` the two outputs sum (up to the `int` truncation) to
`min_score + max_score = 1100`, and at probability 0 they disagree
(800 versus 300) — the two pipelines are not equivalent. -/
theorem inverted_sign_conventions :
    (∀ p : ℚ, probability_to_score p 300 800 = (1 - p) * 500 + 300) ∧
    (∀ p : ℚ, map_probability_to_score p 300 800 = pyTrunc (300 + p * 500)) ∧
    (∀ p : ℚ, 0 ≤ p → p ≤ 1 →
      1099 < probability_to_score p 300 800 +
        ((map_probability_to_score p 300 800 : ℤ) : ℚ) ∧
      probability_to_score p 300 800 +
        ((map_probability_to_score p 300 800 : ℤ) : ℚ) ≤ 1100) ∧
    probability_to_score 0 300 800 = 800 ∧
    ((map_probability_to_score 0 300 800 : ℤ) : ℚ) = 300 ∧
    probability_to_score 0 300 800 ≠ ((map_probability_to_score 0 300 800 : ℤ) : ℚ) := by
  have hmap : ∀ p : ℚ, map_probability_to_score p 300 800 = pyTrunc (300 + p * 500) := by
    intro p
    unfold map_probability_to_score
    congr 1
    push_cast
    ring
  refine ⟨?_, hmap, ?_, ?_, ?_, ?_⟩
  · intro p
    unfold probability_to_score
    push_cast
    ring
  · intro p hp hp1
    have h0 : (0 : ℚ) ≤ 300 + p * 500 := by nlinarith
    have hfl : map_probability_to_score p 300 800 = ⌊(300 : ℚ) + p * 500⌋ := by
      rw [hmap p, pyTrunc_eq_floor _ h0]
    have hle : ((⌊(300 : ℚ) + p * 500⌋ : ℤ) : ℚ) ≤ 300 + p * 500 := Int.floor_le _
    have hlt : (300 : ℚ) + p * 500 - 1 < ((⌊(300 : ℚ) + p * 500⌋ : ℤ) : ℚ) :=
      Int.sub_one_lt_floor _
    have hps : probability_to_score p 300 800 = (1 - p) * 500 + 300 := by
      unfold probability_to_score
      push_cast
      ring
    rw [hfl, hps]
    constructor <;> nlinarith
  · norm_num [probability_to_score]
  · norm_num [map_probability_to_score, pyTrunc]
  · norm_num [probability_to_score, map_probability_to_score, pyTrunc]

/-- C9 witness: the sum bound applied at probability 1/2. -/
theorem inverted_sign_conventions_witness :
    (0 : ℚ) ≤ 1/2 ∧ (1/2 : ℚ) ≤ 1 ∧
    1099 < probability_to_score (1/2) 300 800 +
      ((map_probability_to_score (1/2) 300 800 : ℤ) : ℚ) ∧
    probability_to_score (1/2) 300 800 +
      ((map_probability_to_score (1/2) 300 800 : ℤ) : ℚ) ≤ 1100 :=
  ⟨by norm_num, by norm_num,
    (inverted_sign_conventions.2.2.1 (1/2) (by norm_num) (by norm_num)).1,
    (inverted_sign_conventions.2.2.1 (1/2) (by norm_num) (by norm_num)).2⟩

/-- C10: the credit score and decision computed by `decision_logic` do not
depend on the income argument — two calls agreeing on probability, repayment
history, collateral and missing-documents flags but differing in income
return the identical (credit_score, decision) pair, and likewise for the
`credit_score` and `decision` fields of `run_decision_engine`; income
influences only the loan-amount estimate computed afterwards. -/
theorem income_does_not_affect_decision :
    ∀ (prob i j : ℚ) (rh : String) (hc md : Bool),
      decision_logic prob i rh hc md = decision_logic prob j rh hc md ∧
      (run_decision_engine prob i rh hc md).credit_score =
        (run_decision_engine prob j rh hc md).credit_score ∧
      (run_decision_engine prob i rh hc md).decision =
        (run_decision_engine prob j rh hc md).decision := by
  intro prob i j rh hc md
  exact ⟨rfl, rfl, rfl⟩

lemma generate_message_contains_score (d : String) (cs : ℤ) (la : Option ℚ) :
    strContains (generate_message d cs la) (toString cs) := by
  unfold generate_message
  split_ifs
  · exact strContains_appendl _ _ _ (strContains_appendl _ _ _
      (strContains_appendl _ _ _ (strContains_appendr _ _ _ (strContains_self _))))
  · exact strContains_appendl _ _ _ (strContains_appendr _ _ _ (strContains_self _))
  · exact strContains_appendl _ _ _ (strContains_appendr _ _ _ (strContains_self _))

lemma generate_message_contains_amount (cs : ℤ) (e : ℚ) :
    strContains (generate_message "Approved" cs (some e)) (formatAmount e) := by
  unfold generate_message
  rw [if_pos rfl]
  simp only [Option.getD_some]
  exact strContains_appendl _ _ _ (strContains_appendr _ _ _ (strContains_self _))

/-- C8: every DecisionResult produced by `run_decision_engine` satisfies:
the decision is one of `"Approved"`, `"Review"`, `"Rejected"`; the
probability field is the oracle's output rounded to 4 decimals; the loan
amount is present exactly when the decision is Approved; and the message is
`generate_message` of the other fields, containing the numeric credit score
and, when approved, the formatted amount. -/
theorem decision_result_invariants :
    ∀ (prob income : ℚ) (rh : String) (hc md : Bool),
      ((run_decision_engine prob income rh hc md).decision = "Approved" ∨
       (run_decision_engine prob income rh hc md).decision = "Review" ∨
       (run_decision_engine prob income rh hc md).decision = "Rejected") ∧
      (run_decision_engine prob income rh hc md).probability = round4 prob ∧
      ((run_decision_engine prob income rh hc md).loan_amount.isSome ↔
        (run_decision_engine prob income rh hc md).decision = "Approved") ∧
      (run_decision_engine prob income rh hc md).message =
        generate_message (run_decision_engine prob income rh hc md).decision
          (run_decision_engine prob income rh hc md).credit_score
          (run_decision_engine prob income rh hc md).loan_amount ∧
      strContains (run_decision_engine prob income rh hc md).message
        (toString (run_decision_engine prob income rh hc md).credit_score) ∧
      ((run_decision_engine prob income rh hc md).decision = "Approved" →
        ∃ a, (run_decision_engine prob income rh hc md).loan_amount = some a ∧
          strContains (run_decision_engine prob income rh hc md).message
            (formatAmount a)) := by
  intro prob income rh hc md
  refine ⟨decision_logic_cases prob income rh hc md, rfl, ?_, ?_, ?_, ?_⟩
  · by_cases hd : (decision_logic prob income rh hc md).2 = "Approved"
    · show (if (decision_logic prob income rh hc md).2 = "Approved" then
          some (estimate_loan_amount income (decision_logic prob income rh hc md).1)
        else none).isSome ↔ _
      simp only [if_pos hd, Option.isSome_some, true_iff]
      exact hd
    · show (if (decision_logic prob income rh hc md).2 = "Approved" then
          some (estimate_loan_amount income (decision_logic prob income rh hc md).1)
        else none).isSome ↔ _
      simp only [if_neg hd, Option.isSome_none, Bool.false_eq_true, false_iff]
      exact hd
  · rfl
  · exact generate_message_contains_score _ _ _
  · intro hd
    have hd' : (decision_logic prob income rh hc md).2 = "Approved" := hd
    refine ⟨estimate_loan_amount income (decision_logic prob income rh hc md).1, ?_, ?_⟩
    · show (if (decision_logic prob income rh hc md).2 = "Approved" then
          some (estimate_loan_amount income (decision_logic prob income rh hc md).1)
        else none) = _
      rw [if_pos hd']
    · show strContains (generate_message (decision_logic prob income rh hc md).2
        (decision_logic prob income rh hc md).1
        (if (decision_logic prob income rh hc md).2 = "Approved" then
          some (estimate_loan_amount income (decision_logic prob income rh hc md).1)
        else none)) _
      rw [hd', if_pos rfl]
      exact generate_message_contains_amount _ _

/-- C8 witness: the invariants applied at probability 9/10, income 50000,
good history, no collateral and no missing documents, where the decision is
Approved. -/
theorem decision_result_invariants_witness :
    (run_decision_engine (9/10) 50000 "good" false false).probability =
      round4 (9/10) ∧
    (∃ a, (run_decision_engine (9/10) 50000 "good" false false).loan_amount =
        some a ∧
      strContains (run_decision_engine (9/10) 50000 "good" false false).message
        (formatAmount a)) :=
  ⟨(decision_result_invariants (9/10) 50000 "good" false false).2.1,
   (decision_result_invariants (9/10) 50000 "good" false false).2.2.2.2.2
     (by norm_num [run_decision_engine, decision_logic, map_probability_to_score,
        pyTrunc])⟩

end Esubu
